import Mathlib

/-!
Shallow embedding of the TRIGA NETL parametric data model from the
progression_problems repository, together with proofs of its validation
and derivation invariants.

Dimensions are embedded as exact rationals (every numeric literal in the
source is an exact decimal, and the conversion constant is exactly 2.54).
Python dataclass construction with `__post_init__` assertions is embedded
as a `make` function returning `Except SpecError X`; an assertion
`assert cond, msg` becomes an `if` guard that returns the error kind of
the violated invariant (the spec names the kinds InvalidDimension,
InvalidInput, InvalidLocation, ReservedLocation, InconsistentGeometry).
openmc.Material values produced by the DefaultMaterials factories are
embedded as the content-level enumeration `Mat` (two factory calls with
identical arguments are content-equal per the spec).
-/

/-- constants.py: CM_PER_INCH = 2.54 (exact). -/
def CM_PER_INCH : ℚ := 2.54

/-- Content-level model of the openmc.Material values produced by the
DefaultMaterials factories. `freshFuel none` is the default fresh_fuel()
call; `freshFuel (some d)` is fresh_fuel(density=d). -/
inductive Mat where
  | stainlessSteel
  | freshFuel (density : Option ℚ)
  | zircFiller
  | graphite
  | molybdenum
  | air
  | aluminum
  | controlRodAbsorber
  | water
  deriving DecidableEq, Repr

/-- Error kinds of the construction-time validation failures (spec section 7). -/
inductive SpecError where
  | invalidDimension
  | invalidInput
  | invalidLocation
  | reservedLocation
  | inconsistentGeometry
  deriving DecidableEq, Repr

/-- The Literal type of end fitting directions. -/
inductive Direction where
  | up
  | down
  deriving DecidableEq, Repr

/-- Content model of an openmc.Plane (coefficients of a x + b y + c z = d),
used only as the payload type of BeamPort.termination_plane. -/
structure OMCPlane where
  a : ℚ
  b : ℚ
  c : ℚ
  d : ℚ
  deriving DecidableEq, Repr

/-! ## Association lists with Python dict semantics

Python dicts keyed by strings are embedded as insertion-ordered
association lists. `alGet` is `dict.__getitem__` / `dict.get` (first
matching key), `alSet` is `dict.__setitem__` (replace the value of an
existing key in place, else append), `alKeys` is `dict.keys()`. -/

def alGet {α : Type} : List (String × α) → String → Option α
  | [], _ => none
  | (k₁, v) :: rest, k => if k₁ = k then some v else alGet rest k

def alSet {α : Type} : List (String × α) → String → α → List (String × α)
  | [], k, v => [(k, v)]
  | (k₁, v₁) :: rest, k, v =>
      if k₁ = k then (k₁, v) :: rest else (k₁, v₁) :: alSet rest k v

def alKeys {α : Type} (m : List (String × α)) : List String :=
  m.map Prod.fst

/-! ## progression_problems/TRIGA/fuel_element.py

The nested dataclasses of FuelElement (identical code also appears as the
nested classes of TRIGA.FuelElement in NETL/geometry_specs.py). -/

/-- FuelElement.ZrFillRod. -/
structure FuelElement.ZrFillRod where
  radius : ℚ
  material : Mat
  deriving DecidableEq, Repr

def FuelElement.ZrFillRod.default : FuelElement.ZrFillRod :=
  ⟨0.25 * 0.5 * CM_PER_INCH, Mat.zircFiller⟩

/-- ZrFillRod.__post_init__: radius must be positive. -/
def FuelElement.ZrFillRod.make (radius : ℚ := 0.25 * 0.5 * CM_PER_INCH)
    (material : Mat := Mat.zircFiller) :
    Except SpecError FuelElement.ZrFillRod :=
  if radius > 0 then Except.ok ⟨radius, material⟩
  else Except.error SpecError.invalidDimension

/-- FuelElement.FuelMeat. -/
structure FuelElement.FuelMeat where
  inner_radius : ℚ
  outer_radius : ℚ
  length : ℚ
  material : Mat
  deriving DecidableEq, Repr

def FuelElement.FuelMeat.default : FuelElement.FuelMeat :=
  ⟨0.25 * 0.5 * CM_PER_INCH, 1.435 * 0.5 * CM_PER_INCH, 15.0 * CM_PER_INCH,
    Mat.freshFuel none⟩

/-- FuelMeat.__post_init__: inner radius positive, outer radius larger than
inner radius, length positive. -/
def FuelElement.FuelMeat.make (inner_radius : ℚ := 0.25 * 0.5 * CM_PER_INCH)
    (outer_radius : ℚ := 1.435 * 0.5 * CM_PER_INCH)
    (length : ℚ := 15.0 * CM_PER_INCH) (material : Mat := Mat.freshFuel none) :
    Except SpecError FuelElement.FuelMeat :=
  if inner_radius > 0 then
    if outer_radius > inner_radius then
      if length > 0 then Except.ok ⟨inner_radius, outer_radius, length, material⟩
      else Except.error SpecError.invalidDimension
    else Except.error SpecError.invalidDimension
  else Except.error SpecError.invalidDimension

/-- FuelElement.Cladding. -/
structure FuelElement.Cladding where
  thickness : ℚ
  outer_radius : ℚ
  material : Mat
  deriving DecidableEq, Repr

def FuelElement.Cladding.default : FuelElement.Cladding :=
  ⟨0.020 * CM_PER_INCH, 1.475 * 0.5 * CM_PER_INCH, Mat.stainlessSteel⟩

/-- Cladding.__post_init__: thickness positive, outer radius positive
(no inner/outer pair check; the implied inner radius is unconstrained). -/
def FuelElement.Cladding.make (thickness : ℚ := 0.020 * CM_PER_INCH)
    (outer_radius : ℚ := 1.475 * 0.5 * CM_PER_INCH)
    (material : Mat := Mat.stainlessSteel) :
    Except SpecError FuelElement.Cladding :=
  if thickness > 0 then
    if outer_radius > 0 then Except.ok ⟨thickness, outer_radius, material⟩
    else Except.error SpecError.invalidDimension
  else Except.error SpecError.invalidDimension

/-- FuelElement.GraphiteReflector. -/
structure FuelElement.GraphiteReflector where
  radius : ℚ
  thickness : ℚ
  material : Mat
  deriving DecidableEq, Repr

def FuelElement.GraphiteReflector.default : FuelElement.GraphiteReflector :=
  ⟨1.430 * 0.5 * CM_PER_INCH, 3.420 * CM_PER_INCH, Mat.graphite⟩

/-- GraphiteReflector.__post_init__: radius positive, thickness positive. -/
def FuelElement.GraphiteReflector.make (radius : ℚ := 1.430 * 0.5 * CM_PER_INCH)
    (thickness : ℚ := 3.420 * CM_PER_INCH) (material : Mat := Mat.graphite) :
    Except SpecError FuelElement.GraphiteReflector :=
  if radius > 0 then
    if thickness > 0 then Except.ok ⟨radius, thickness, material⟩
    else Except.error SpecError.invalidDimension
  else Except.error SpecError.invalidDimension

/-- FuelElement.MolyDisc. -/
structure FuelElement.MolyDisc where
  radius : ℚ
  thickness : ℚ
  material : Mat
  deriving DecidableEq, Repr

def FuelElement.MolyDisc.default : FuelElement.MolyDisc :=
  ⟨1.431 * 0.5 * CM_PER_INCH, 0.031 * CM_PER_INCH, Mat.molybdenum⟩

/-- MolyDisc.__post_init__: radius positive, thickness positive. -/
def FuelElement.MolyDisc.make (radius : ℚ := 1.431 * 0.5 * CM_PER_INCH)
    (thickness : ℚ := 0.031 * CM_PER_INCH) (material : Mat := Mat.molybdenum) :
    Except SpecError FuelElement.MolyDisc :=
  if radius > 0 then
    if thickness > 0 then Except.ok ⟨radius, thickness, material⟩
    else Except.error SpecError.invalidDimension
  else Except.error SpecError.invalidDimension

/-- FuelElement.AirGap. -/
structure FuelElement.AirGap where
  thickness : ℚ
  material : Mat
  deriving DecidableEq, Repr

def FuelElement.AirGap.default : FuelElement.AirGap :=
  ⟨0.5 * CM_PER_INCH, Mat.air⟩

/-- AirGap.__post_init__: thickness positive. -/
def FuelElement.AirGap.make (thickness : ℚ := 0.5 * CM_PER_INCH)
    (material : Mat := Mat.air) : Except SpecError FuelElement.AirGap :=
  if thickness > 0 then Except.ok ⟨thickness, material⟩
  else Except.error SpecError.invalidDimension

/-- FuelElement.EndFitting (length has no class-level default). -/
structure FuelElement.EndFitting where
  length : ℚ
  direction : Direction
  material : Mat
  deriving DecidableEq, Repr

/-- EndFitting.__post_init__: length positive; direction must be up or down
(always true in the typed embedding, kept to mirror the source). -/
def FuelElement.EndFitting.make (length : ℚ) (direction : Direction)
    (material : Mat := Mat.stainlessSteel) :
    Except SpecError FuelElement.EndFitting :=
  if length > 0 then
    if direction = Direction.up ∨ direction = Direction.down then
      Except.ok ⟨length, direction, material⟩
    else Except.error SpecError.invalidInput
  else Except.error SpecError.invalidDimension

/-- FuelElement: nine constituent parts plus the derived interior_length
set by __post_init__. -/
structure FuelElement where
  cladding : FuelElement.Cladding
  upper_end_fitting : FuelElement.EndFitting
  upper_air_gap : FuelElement.AirGap
  upper_graphite_reflector : FuelElement.GraphiteReflector
  zr_fill_rod : FuelElement.ZrFillRod
  fuel_meat : FuelElement.FuelMeat
  moly_disc : FuelElement.MolyDisc
  lower_graphite_reflector : FuelElement.GraphiteReflector
  lower_end_fitting : FuelElement.EndFitting
  interior_length : ℚ
  deriving DecidableEq, Repr

/-- FuelElement.__post_init__: no assertions; stores
interior_length = lower_graphite_reflector.thickness + moly_disc.thickness
+ fuel_meat.length + upper_graphite_reflector.thickness
+ upper_air_gap.thickness. Part defaults mirror the default_factory
values of the dataclass fields. -/
def FuelElement.make
    (cladding : FuelElement.Cladding := FuelElement.Cladding.default)
    (upper_end_fitting : FuelElement.EndFitting :=
      ⟨7.3552, Direction.up, Mat.stainlessSteel⟩)
    (upper_air_gap : FuelElement.AirGap := FuelElement.AirGap.default)
    (upper_graphite_reflector : FuelElement.GraphiteReflector :=
      ⟨1.430 * 0.5 * CM_PER_INCH, 2.56 * CM_PER_INCH, Mat.graphite⟩)
    (zr_fill_rod : FuelElement.ZrFillRod := FuelElement.ZrFillRod.default)
    (fuel_meat : FuelElement.FuelMeat := FuelElement.FuelMeat.default)
    (moly_disc : FuelElement.MolyDisc := FuelElement.MolyDisc.default)
    (lower_graphite_reflector : FuelElement.GraphiteReflector :=
      ⟨1.430 * 0.5 * CM_PER_INCH, 3.72 * CM_PER_INCH, Mat.graphite⟩)
    (lower_end_fitting : FuelElement.EndFitting :=
      ⟨7.6209, Direction.down, Mat.stainlessSteel⟩) : FuelElement :=
  ⟨cladding, upper_end_fitting, upper_air_gap, upper_graphite_reflector,
    zr_fill_rod, fuel_meat, moly_disc, lower_graphite_reflector,
    lower_end_fitting,
    lower_graphite_reflector.thickness + moly_disc.thickness
      + fuel_meat.length + upper_graphite_reflector.thickness
      + upper_air_gap.thickness⟩

/-- The default fuel element TRIGA.FuelElement(). -/
def FuelElement.default : FuelElement := FuelElement.make

/-! ## progression_problems/TRIGA/graphite_element.py

GraphiteElement has no top-level __post_init__; its default dimensions are
derived by constructing default FuelElement parts (default-value coupling). -/

/-- GraphiteElement.GraphiteMeat. -/
structure GraphiteElement.GraphiteMeat where
  outer_radius : ℚ
  length : ℚ
  material : Mat
  deriving DecidableEq, Repr

/-- Source default_factory lambdas: outer_radius from
FuelElement.FuelMeat(), length from FuelElement().interior_length. -/
def GraphiteElement.GraphiteMeat.default : GraphiteElement.GraphiteMeat :=
  ⟨FuelElement.FuelMeat.default.outer_radius, FuelElement.default.interior_length,
    Mat.graphite⟩

/-- GraphiteMeat.__post_init__: outer radius positive, length positive. -/
def GraphiteElement.GraphiteMeat.make
    (outer_radius : ℚ := FuelElement.FuelMeat.default.outer_radius)
    (length : ℚ := FuelElement.default.interior_length)
    (material : Mat := Mat.graphite) :
    Except SpecError GraphiteElement.GraphiteMeat :=
  if outer_radius > 0 then
    if length > 0 then Except.ok ⟨outer_radius, length, material⟩
    else Except.error SpecError.invalidDimension
  else Except.error SpecError.invalidDimension

/-- GraphiteElement.Cladding (defaults from FuelElement.Cladding()). -/
structure GraphiteElement.Cladding where
  thickness : ℚ
  outer_radius : ℚ
  material : Mat
  deriving DecidableEq, Repr

def GraphiteElement.Cladding.default : GraphiteElement.Cladding :=
  ⟨FuelElement.Cladding.default.thickness, FuelElement.Cladding.default.outer_radius,
    Mat.aluminum⟩

/-- Cladding.__post_init__: thickness positive, outer radius positive. -/
def GraphiteElement.Cladding.make
    (thickness : ℚ := FuelElement.Cladding.default.thickness)
    (outer_radius : ℚ := FuelElement.Cladding.default.outer_radius)
    (material : Mat := Mat.aluminum) :
    Except SpecError GraphiteElement.Cladding :=
  if thickness > 0 then
    if outer_radius > 0 then Except.ok ⟨thickness, outer_radius, material⟩
    else Except.error SpecError.invalidDimension
  else Except.error SpecError.invalidDimension

/-- GraphiteElement.EndFitting. -/
structure GraphiteElement.EndFitting where
  length : ℚ
  direction : Direction
  material : Mat
  deriving DecidableEq, Repr

/-- EndFitting.__post_init__: length positive; direction up or down. -/
def GraphiteElement.EndFitting.make (length : ℚ) (direction : Direction)
    (material : Mat := Mat.aluminum) :
    Except SpecError GraphiteElement.EndFitting :=
  if length > 0 then
    if direction = Direction.up ∨ direction = Direction.down then
      Except.ok ⟨length, direction, material⟩
    else Except.error SpecError.invalidInput
  else Except.error SpecError.invalidDimension

/-- GraphiteElement: cladding, end fittings and graphite meat; no top-level
__post_init__. -/
structure GraphiteElement where
  cladding : GraphiteElement.Cladding
  upper_end_fitting : GraphiteElement.EndFitting
  graphite_meat : GraphiteElement.GraphiteMeat
  lower_end_fitting : GraphiteElement.EndFitting
  deriving DecidableEq, Repr

/-- GraphiteElement(): end fitting lengths are taken from the default
FuelElement instance (source default_factory lambdas). -/
def GraphiteElement.make
    (cladding : GraphiteElement.Cladding := GraphiteElement.Cladding.default)
    (upper_end_fitting : GraphiteElement.EndFitting :=
      ⟨FuelElement.default.upper_end_fitting.length, Direction.up, Mat.aluminum⟩)
    (graphite_meat : GraphiteElement.GraphiteMeat :=
      GraphiteElement.GraphiteMeat.default)
    (lower_end_fitting : GraphiteElement.EndFitting :=
      ⟨FuelElement.default.lower_end_fitting.length, Direction.down, Mat.aluminum⟩) :
    GraphiteElement :=
  ⟨cladding, upper_end_fitting, graphite_meat, lower_end_fitting⟩

def GraphiteElement.default : GraphiteElement := GraphiteElement.make

/-! ## progression_problems/TRIGA/NETL/transient_rod.py -/

/-- TransientRod.Cladding. -/
structure TransientRod.Cladding where
  outer_radius : ℚ
  thickness : ℚ
  material : Mat
  deriving DecidableEq, Repr

def TransientRod.Cladding.default : TransientRod.Cladding :=
  ⟨1.25 * 0.5 * CM_PER_INCH, 0.028 * CM_PER_INCH, Mat.aluminum⟩

/-- Cladding.__post_init__: outer radius positive, thickness positive
(no inner/outer pair check; the implied inner radius is unconstrained). -/
def TransientRod.Cladding.make (outer_radius : ℚ := 1.25 * 0.5 * CM_PER_INCH)
    (thickness : ℚ := 0.028 * CM_PER_INCH) (material : Mat := Mat.aluminum) :
    Except SpecError TransientRod.Cladding :=
  if outer_radius > 0 then
    if thickness > 0 then Except.ok ⟨outer_radius, thickness, material⟩
    else Except.error SpecError.invalidDimension
  else Except.error SpecError.invalidDimension

/-- TransientRod.ElementPlug. -/
structure TransientRod.ElementPlug where
  thickness : ℚ
  material : Mat
  deriving DecidableEq, Repr

def TransientRod.ElementPlug.default : TransientRod.ElementPlug :=
  ⟨0.5 * CM_PER_INCH, Mat.aluminum⟩

/-- ElementPlug.__post_init__: thickness positive. -/
def TransientRod.ElementPlug.make (thickness : ℚ := 0.5 * CM_PER_INCH)
    (material : Mat := Mat.aluminum) : Except SpecError TransientRod.ElementPlug :=
  if thickness > 0 then Except.ok ⟨thickness, material⟩
  else Except.error SpecError.invalidDimension

/-- TransientRod.MagneformFitting. -/
structure TransientRod.MagneformFitting where
  thickness : ℚ
  material : Mat
  deriving DecidableEq, Repr

def TransientRod.MagneformFitting.default : TransientRod.MagneformFitting :=
  ⟨1.0 * CM_PER_INCH, Mat.aluminum⟩

/-- MagneformFitting.__post_init__: thickness positive. -/
def TransientRod.MagneformFitting.make (thickness : ℚ := 1.0 * CM_PER_INCH)
    (material : Mat := Mat.aluminum) :
    Except SpecError TransientRod.MagneformFitting :=
  if thickness > 0 then Except.ok ⟨thickness, material⟩
  else Except.error SpecError.invalidDimension

/-- TransientRod.Absorber. -/
structure TransientRod.Absorber where
  radius : ℚ
  length : ℚ
  material : Mat
  deriving DecidableEq, Repr

def TransientRod.Absorber.default : TransientRod.Absorber :=
  ⟨1.187 * 0.5 * CM_PER_INCH, 15.0 * CM_PER_INCH, Mat.controlRodAbsorber⟩

/-- Absorber.__post_init__: radius positive, length positive. -/
def TransientRod.Absorber.make (radius : ℚ := 1.187 * 0.5 * CM_PER_INCH)
    (length : ℚ := 15.0 * CM_PER_INCH) (material : Mat := Mat.controlRodAbsorber) :
    Except SpecError TransientRod.Absorber :=
  if radius > 0 then
    if length > 0 then Except.ok ⟨radius, length, material⟩
    else Except.error SpecError.invalidDimension
  else Except.error SpecError.invalidDimension

/-- TransientRod.AirGap (the air follower section; no material field in
the module-level class). -/
structure TransientRod.AirGap where
  thickness : ℚ
  deriving DecidableEq, Repr

def TransientRod.AirGap.default : TransientRod.AirGap :=
  ⟨19.75 * CM_PER_INCH⟩

/-- AirGap.__post_init__: thickness positive. -/
def TransientRod.AirGap.make (thickness : ℚ := 19.75 * CM_PER_INCH) :
    Except SpecError TransientRod.AirGap :=
  if thickness > 0 then Except.ok ⟨thickness⟩
  else Except.error SpecError.invalidDimension

/-- TransientRod: sections plus the withdrawal state scalars. -/
structure TransientRod where
  cladding : TransientRod.Cladding
  fill_gas : Mat
  upper_element_plug : TransientRod.ElementPlug
  upper_magneform_fitting : TransientRod.MagneformFitting
  absorber : TransientRod.Absorber
  lower_magneform_fitting : TransientRod.MagneformFitting
  air_follower : TransientRod.AirGap
  lower_element_plug : TransientRod.ElementPlug
  maximum_withdrawal_distance : ℚ
  fraction_withdrawn : ℚ
  core_centerline_offset : ℚ
  deriving DecidableEq, Repr

/-- TransientRod.__post_init__: fraction_withdrawn must be non-negative,
must not exceed 1.0, and maximum_withdrawal_distance must be positive. -/
def TransientRod.make
    (cladding : TransientRod.Cladding := TransientRod.Cladding.default)
    (fill_gas : Mat := Mat.air)
    (upper_element_plug : TransientRod.ElementPlug := TransientRod.ElementPlug.default)
    (upper_magneform_fitting : TransientRod.MagneformFitting :=
      TransientRod.MagneformFitting.default)
    (absorber : TransientRod.Absorber := TransientRod.Absorber.default)
    (lower_magneform_fitting : TransientRod.MagneformFitting :=
      TransientRod.MagneformFitting.default)
    (air_follower : TransientRod.AirGap := TransientRod.AirGap.default)
    (lower_element_plug : TransientRod.ElementPlug := TransientRod.ElementPlug.default)
    (maximum_withdrawal_distance : ℚ := 15.0 * CM_PER_INCH)
    (fraction_withdrawn : ℚ := 0.0)
    (core_centerline_offset : ℚ := 0.0) : Except SpecError TransientRod :=
  if fraction_withdrawn ≥ 0 then
    if fraction_withdrawn ≤ 1 then
      if maximum_withdrawal_distance > 0 then
        Except.ok ⟨cladding, fill_gas, upper_element_plug, upper_magneform_fitting,
          absorber, lower_magneform_fitting, air_follower, lower_element_plug,
          maximum_withdrawal_distance, fraction_withdrawn, core_centerline_offset⟩
      else Except.error SpecError.invalidInput
    else Except.error SpecError.invalidInput
  else Except.error SpecError.invalidInput

/-- The default transient rod TransientRod(). -/
def TransientRod.default : TransientRod :=
  ⟨TransientRod.Cladding.default, Mat.air, TransientRod.ElementPlug.default,
    TransientRod.MagneformFitting.default, TransientRod.Absorber.default,
    TransientRod.MagneformFitting.default, TransientRod.AirGap.default,
    TransientRod.ElementPlug.default, 15.0 * CM_PER_INCH, 0.0, 0.0⟩

/-! ## progression_problems/TRIGA/NETL/fuel_follower_control_rod.py -/

/-- FuelFollowerControlRod.Cladding. -/
structure FuelFollowerControlRod.Cladding where
  outer_radius : ℚ
  thickness : ℚ
  material : Mat
  deriving DecidableEq, Repr

def FuelFollowerControlRod.Cladding.default : FuelFollowerControlRod.Cladding :=
  ⟨1.31 * 0.5 * CM_PER_INCH, 0.02 * CM_PER_INCH, Mat.stainlessSteel⟩

/-- Cladding.__post_init__: outer radius positive, thickness positive
(no inner/outer pair check; the implied inner radius is unconstrained). -/
def FuelFollowerControlRod.Cladding.make
    (outer_radius : ℚ := 1.31 * 0.5 * CM_PER_INCH)
    (thickness : ℚ := 0.02 * CM_PER_INCH) (material : Mat := Mat.stainlessSteel) :
    Except SpecError FuelFollowerControlRod.Cladding :=
  if outer_radius > 0 then
    if thickness > 0 then Except.ok ⟨outer_radius, thickness, material⟩
    else Except.error SpecError.invalidDimension
  else Except.error SpecError.invalidDimension

/-- FuelFollowerControlRod.ElementPlug (thickness has no default). -/
structure FuelFollowerControlRod.ElementPlug where
  thickness : ℚ
  material : Mat
  deriving DecidableEq, Repr

/-- ElementPlug.__post_init__: thickness positive. -/
def FuelFollowerControlRod.ElementPlug.make (thickness : ℚ)
    (material : Mat := Mat.stainlessSteel) :
    Except SpecError FuelFollowerControlRod.ElementPlug :=
  if thickness > 0 then Except.ok ⟨thickness, material⟩
  else Except.error SpecError.invalidDimension

/-- FuelFollowerControlRod.MagneformFitting (thickness has no default). -/
structure FuelFollowerControlRod.MagneformFitting where
  thickness : ℚ
  material : Mat
  deriving DecidableEq, Repr

/-- MagneformFitting.__post_init__: thickness positive. -/
def FuelFollowerControlRod.MagneformFitting.make (thickness : ℚ)
    (material : Mat := Mat.stainlessSteel) :
    Except SpecError FuelFollowerControlRod.MagneformFitting :=
  if thickness > 0 then Except.ok ⟨thickness, material⟩
  else Except.error SpecError.invalidDimension

/-- FuelFollowerControlRod.Absorber. -/
structure FuelFollowerControlRod.Absorber where
  radius : ℚ
  length : ℚ
  material : Mat
  deriving DecidableEq, Repr

def FuelFollowerControlRod.Absorber.default : FuelFollowerControlRod.Absorber :=
  ⟨1.3 * 0.5 * CM_PER_INCH, 15.0 * CM_PER_INCH, Mat.controlRodAbsorber⟩

/-- Absorber.__post_init__: radius positive, length positive. -/
def FuelFollowerControlRod.Absorber.make (radius : ℚ := 1.3 * 0.5 * CM_PER_INCH)
    (length : ℚ := 15.0 * CM_PER_INCH) (material : Mat := Mat.controlRodAbsorber) :
    Except SpecError FuelFollowerControlRod.Absorber :=
  if radius > 0 then
    if length > 0 then Except.ok ⟨radius, length, material⟩
    else Except.error SpecError.invalidDimension
  else Except.error SpecError.invalidDimension

/-- FuelFollowerControlRod.FuelFollower: note that the record has an
inner_radius, a length and a material, but no outer_radius field at all —
the outer radius of the fuel follower is not independently specifiable on
this record. -/
structure FuelFollowerControlRod.FuelFollower where
  inner_radius : ℚ
  length : ℚ
  material : Mat
  deriving DecidableEq, Repr

def FuelFollowerControlRod.FuelFollower.default : FuelFollowerControlRod.FuelFollower :=
  ⟨0.25 * 0.5 * CM_PER_INCH, 15.0 * CM_PER_INCH, Mat.freshFuel (some 6.0124)⟩

/-- FuelFollower.__post_init__: inner radius positive, length positive. -/
def FuelFollowerControlRod.FuelFollower.make
    (inner_radius : ℚ := 0.25 * 0.5 * CM_PER_INCH)
    (length : ℚ := 15.0 * CM_PER_INCH)
    (material : Mat := Mat.freshFuel (some 6.0124)) :
    Except SpecError FuelFollowerControlRod.FuelFollower :=
  if inner_radius > 0 then
    if length > 0 then Except.ok ⟨inner_radius, length, material⟩
    else Except.error SpecError.invalidDimension
  else Except.error SpecError.invalidDimension

/-- FuelFollowerControlRod.ZrFillRod. -/
structure FuelFollowerControlRod.ZrFillRod where
  radius : ℚ
  material : Mat
  deriving DecidableEq, Repr

def FuelFollowerControlRod.ZrFillRod.default : FuelFollowerControlRod.ZrFillRod :=
  ⟨0.25 * 0.5 * CM_PER_INCH, Mat.zircFiller⟩

/-- ZrFillRod.__post_init__: radius positive. -/
def FuelFollowerControlRod.ZrFillRod.make (radius : ℚ := 0.25 * 0.5 * CM_PER_INCH)
    (material : Mat := Mat.zircFiller) :
    Except SpecError FuelFollowerControlRod.ZrFillRod :=
  if radius > 0 then Except.ok ⟨radius, material⟩
  else Except.error SpecError.invalidDimension

/-- FuelFollowerControlRod.AirGap (thickness has no default). -/
structure FuelFollowerControlRod.AirGap where
  thickness : ℚ
  material : Mat
  deriving DecidableEq, Repr

/-- AirGap.__post_init__: thickness positive. -/
def FuelFollowerControlRod.AirGap.make (thickness : ℚ)
    (material : Mat := Mat.air) : Except SpecError FuelFollowerControlRod.AirGap :=
  if thickness > 0 then Except.ok ⟨thickness, material⟩
  else Except.error SpecError.invalidDimension

/-- FuelFollowerControlRod: the thirteen axially stacked sections plus the
withdrawal state scalars. -/
structure FuelFollowerControlRod where
  cladding : FuelFollowerControlRod.Cladding
  upper_element_plug : FuelFollowerControlRod.ElementPlug
  upper_air_gap : FuelFollowerControlRod.AirGap
  upper_magneform_fitting : FuelFollowerControlRod.MagneformFitting
  above_absorber_air_gap : FuelFollowerControlRod.AirGap
  absorber : FuelFollowerControlRod.Absorber
  middle_magneform_fitting : FuelFollowerControlRod.MagneformFitting
  above_fuel_follower_air_gap : FuelFollowerControlRod.AirGap
  zr_fill_rod : FuelFollowerControlRod.ZrFillRod
  fuel_follower : FuelFollowerControlRod.FuelFollower
  lower_magneform_fitting : FuelFollowerControlRod.MagneformFitting
  lower_air_gap : FuelFollowerControlRod.AirGap
  lower_element_plug : FuelFollowerControlRod.ElementPlug
  maximum_withdrawal_distance : ℚ
  fraction_withdrawn : ℚ
  core_centerline_offset : ℚ
  deriving DecidableEq, Repr

/-- FuelFollowerControlRod.__post_init__: fraction_withdrawn must be
non-negative, must not exceed 1.0, and maximum_withdrawal_distance must be
positive. Part defaults mirror the default_factory partial applications. -/
def FuelFollowerControlRod.make
    (cladding : FuelFollowerControlRod.Cladding := FuelFollowerControlRod.Cladding.default)
    (upper_element_plug : FuelFollowerControlRod.ElementPlug :=
      ⟨1.5 * CM_PER_INCH, Mat.stainlessSteel⟩)
    (upper_air_gap : FuelFollowerControlRod.AirGap := ⟨3.5 * CM_PER_INCH, Mat.air⟩)
    (upper_magneform_fitting : FuelFollowerControlRod.MagneformFitting :=
      ⟨0.5 * CM_PER_INCH, Mat.stainlessSteel⟩)
    (above_absorber_air_gap : FuelFollowerControlRod.AirGap :=
      ⟨0.125 * CM_PER_INCH, Mat.air⟩)
    (absorber : FuelFollowerControlRod.Absorber := FuelFollowerControlRod.Absorber.default)
    (middle_magneform_fitting : FuelFollowerControlRod.MagneformFitting :=
      ⟨0.5 * CM_PER_INCH, Mat.stainlessSteel⟩)
    (above_fuel_follower_air_gap : FuelFollowerControlRod.AirGap :=
      ⟨0.25 * CM_PER_INCH, Mat.air⟩)
    (zr_fill_rod : FuelFollowerControlRod.ZrFillRod :=
      FuelFollowerControlRod.ZrFillRod.default)
    (fuel_follower : FuelFollowerControlRod.FuelFollower :=
      FuelFollowerControlRod.FuelFollower.default)
    (lower_magneform_fitting : FuelFollowerControlRod.MagneformFitting :=
      ⟨1.0 * CM_PER_INCH, Mat.stainlessSteel⟩)
    (lower_air_gap : FuelFollowerControlRod.AirGap := ⟨5.375 * CM_PER_INCH, Mat.air⟩)
    (lower_element_plug : FuelFollowerControlRod.ElementPlug :=
      ⟨0.5 * CM_PER_INCH, Mat.stainlessSteel⟩)
    (maximum_withdrawal_distance : ℚ := 15.0 * CM_PER_INCH)
    (fraction_withdrawn : ℚ := 0.0)
    (core_centerline_offset : ℚ := 0.0) : Except SpecError FuelFollowerControlRod :=
  if fraction_withdrawn ≥ 0 then
    if fraction_withdrawn ≤ 1 then
      if maximum_withdrawal_distance > 0 then
        Except.ok ⟨cladding, upper_element_plug, upper_air_gap,
          upper_magneform_fitting, above_absorber_air_gap, absorber,
          middle_magneform_fitting, above_fuel_follower_air_gap, zr_fill_rod,
          fuel_follower, lower_magneform_fitting, lower_air_gap,
          lower_element_plug, maximum_withdrawal_distance, fraction_withdrawn,
          core_centerline_offset⟩
      else Except.error SpecError.invalidInput
    else Except.error SpecError.invalidInput
  else Except.error SpecError.invalidInput

/-- The default fuel follower control rod FuelFollowerControlRod(). -/
def FuelFollowerControlRod.default : FuelFollowerControlRod :=
  ⟨FuelFollowerControlRod.Cladding.default, ⟨1.5 * CM_PER_INCH, Mat.stainlessSteel⟩,
    ⟨3.5 * CM_PER_INCH, Mat.air⟩, ⟨0.5 * CM_PER_INCH, Mat.stainlessSteel⟩,
    ⟨0.125 * CM_PER_INCH, Mat.air⟩, FuelFollowerControlRod.Absorber.default,
    ⟨0.5 * CM_PER_INCH, Mat.stainlessSteel⟩, ⟨0.25 * CM_PER_INCH, Mat.air⟩,
    FuelFollowerControlRod.ZrFillRod.default, FuelFollowerControlRod.FuelFollower.default,
    ⟨1.0 * CM_PER_INCH, Mat.stainlessSteel⟩, ⟨5.375 * CM_PER_INCH, Mat.air⟩,
    ⟨0.5 * CM_PER_INCH, Mat.stainlessSteel⟩, 15.0 * CM_PER_INCH, 0.0, 0.0⟩

/-! ## progression_problems/TRIGA/NETL/central_thimble.py -/

/-- CentralThimble. -/
structure CentralThimble where
  inner_radius : ℚ
  outer_radius : ℚ
  material : Mat
  deriving DecidableEq, Repr

def CentralThimble.default : CentralThimble :=
  ⟨1.33 * 0.5 * CM_PER_INCH, 1.5 * 0.5 * CM_PER_INCH, Mat.aluminum⟩

/-- CentralThimble.__post_init__: inner radius positive, outer radius
larger than inner radius. -/
def CentralThimble.make (inner_radius : ℚ := 1.33 * 0.5 * CM_PER_INCH)
    (outer_radius : ℚ := 1.5 * 0.5 * CM_PER_INCH) (material : Mat := Mat.aluminum) :
    Except SpecError CentralThimble :=
  if inner_radius > 0 then
    if outer_radius > inner_radius then Except.ok ⟨inner_radius, outer_radius, material⟩
    else Except.error SpecError.invalidDimension
  else Except.error SpecError.invalidDimension

/-! ## progression_problems/TRIGA/NETL/beam_port.py -/

/-- BeamPort. -/
structure BeamPort where
  inner_radius : ℚ
  outer_radius : ℚ
  rotation : List (List ℚ)
  translation : ℚ × ℚ × ℚ
  termination_plane : Option OMCPlane
  tube_material : Mat
  fill_material : Mat
  deriving DecidableEq, Repr

def BeamPort.default : BeamPort :=
  ⟨6.065 * 0.5 * CM_PER_INCH, 6.625 * CM_PER_INCH,
    [[0.0, 90.0, 90.0], [90.0, 0.0, 90.0], [90.0, 90.0, 0.0]],
    (0.0, 0.0, 0.0), none, Mat.aluminum, Mat.air⟩

/-- BeamPort.__post_init__: inner radius positive, outer radius larger
than inner radius. -/
def BeamPort.make (inner_radius : ℚ := 6.065 * 0.5 * CM_PER_INCH)
    (outer_radius : ℚ := 6.625 * CM_PER_INCH)
    (rotation : List (List ℚ) :=
      [[0.0, 90.0, 90.0], [90.0, 0.0, 90.0], [90.0, 90.0, 0.0]])
    (translation : ℚ × ℚ × ℚ := (0.0, 0.0, 0.0))
    (termination_plane : Option OMCPlane := none)
    (tube_material : Mat := Mat.aluminum) (fill_material : Mat := Mat.air) :
    Except SpecError BeamPort :=
  if inner_radius > 0 then
    if outer_radius > inner_radius then
      Except.ok ⟨inner_radius, outer_radius, rotation, translation,
        termination_plane, tube_material, fill_material⟩
    else Except.error SpecError.invalidDimension
  else Except.error SpecError.invalidDimension

/-! ## TRIGA.SourceHolder (NETL/geometry_specs.py, identical to
progression_problems/TRIGA/NETL/source_holder.py) -/

/-- SourceHolder.Cavity. -/
structure SourceHolder.Cavity where
  radius : ℚ
  length : ℚ
  core_centerline_offset : ℚ
  material : Mat
  deriving DecidableEq, Repr

def SourceHolder.Cavity.default : SourceHolder.Cavity :=
  ⟨0.981 * 0.5 * CM_PER_INCH, 3.0 * CM_PER_INCH, 0.0 * CM_PER_INCH, Mat.air⟩

/-- Cavity.__post_init__: radius positive, length positive. -/
def SourceHolder.Cavity.make (radius : ℚ := 0.981 * 0.5 * CM_PER_INCH)
    (length : ℚ := 3.0 * CM_PER_INCH) (core_centerline_offset : ℚ := 0.0 * CM_PER_INCH)
    (material : Mat := Mat.air) : Except SpecError SourceHolder.Cavity :=
  if radius > 0 then
    if length > 0 then Except.ok ⟨radius, length, core_centerline_offset, material⟩
    else Except.error SpecError.invalidDimension
  else Except.error SpecError.invalidDimension

/-- SourceHolder.Cladding. -/
structure SourceHolder.Cladding where
  outer_radius : ℚ
  material : Mat
  deriving DecidableEq, Repr

def SourceHolder.Cladding.default : SourceHolder.Cladding :=
  ⟨1.435 * 0.5 * CM_PER_INCH, Mat.aluminum⟩

/-- Cladding.__post_init__: outer radius positive. -/
def SourceHolder.Cladding.make (outer_radius : ℚ := 1.435 * 0.5 * CM_PER_INCH)
    (material : Mat := Mat.aluminum) : Except SpecError SourceHolder.Cladding :=
  if outer_radius > 0 then Except.ok ⟨outer_radius, material⟩
  else Except.error SpecError.invalidDimension

/-- SourceHolder. -/
structure SourceHolder where
  cavity : SourceHolder.Cavity
  cladding : SourceHolder.Cladding
  core_centerline_offset : ℚ
  distance_from_lower_grid_plate : ℚ
  deriving DecidableEq, Repr

def SourceHolder.default : SourceHolder :=
  ⟨SourceHolder.Cavity.default, SourceHolder.Cladding.default, 0.0, 1.1934⟩

/-- SourceHolder.__post_init__: distance from lower grid plate must be
non-negative. -/
def SourceHolder.make (cavity : SourceHolder.Cavity := SourceHolder.Cavity.default)
    (cladding : SourceHolder.Cladding := SourceHolder.Cladding.default)
    (core_centerline_offset : ℚ := 0.0)
    (distance_from_lower_grid_plate : ℚ := 1.1934) :
    Except SpecError SourceHolder :=
  if distance_from_lower_grid_plate ≥ 0 then
    Except.ok ⟨cavity, cladding, core_centerline_offset, distance_from_lower_grid_plate⟩
  else Except.error SpecError.invalidInput

/-! ## The fixture rod dataclasses of NETL/geometry_specs.py

TRIGA.TransientRod and TRIGA.FuelFollowerControlRod in geometry_specs.py
differ from the module-level classes: they carry a step-count `position`
field instead of the withdrawal scalars and have no top-level
__post_init__. Their nested section dataclasses are identical to the
module-level ones, except that the geometry_specs TransientRod.AirGap also
carries a material. They appear only as the fixture payloads of
TRIGA.Core. -/

/-- geometry_specs TRIGA.TransientRod.AirGap (thickness and material). -/
structure GSTransientRod.AirGap where
  thickness : ℚ
  material : Mat
  deriving DecidableEq, Repr

def GSTransientRod.AirGap.default : GSTransientRod.AirGap :=
  ⟨19.75 * CM_PER_INCH, Mat.air⟩

/-- geometry_specs TRIGA.TransientRod (no top-level __post_init__). -/
structure GSTransientRod where
  cladding : TransientRod.Cladding
  upper_element_plug : TransientRod.ElementPlug
  upper_magneform_fitting : TransientRod.MagneformFitting
  absorber : TransientRod.Absorber
  lower_magneform_fitting : TransientRod.MagneformFitting
  air_follower : GSTransientRod.AirGap
  lower_element_plug : TransientRod.ElementPlug
  position : Int
  deriving DecidableEq, Repr

/-- TRIGA.TransientRod(position = 524), the Core default fixture. -/
def GSTransientRod.default524 : GSTransientRod :=
  ⟨TransientRod.Cladding.default, TransientRod.ElementPlug.default,
    TransientRod.MagneformFitting.default, TransientRod.Absorber.default,
    TransientRod.MagneformFitting.default, GSTransientRod.AirGap.default,
    TransientRod.ElementPlug.default, 524⟩

/-- geometry_specs TRIGA.FuelFollowerControlRod (no top-level
__post_init__; nested sections identical to the module-level class). -/
structure GSFuelFollowerControlRod where
  cladding : FuelFollowerControlRod.Cladding
  upper_element_plug : FuelFollowerControlRod.ElementPlug
  upper_air_gap : FuelFollowerControlRod.AirGap
  upper_magneform_fitting : FuelFollowerControlRod.MagneformFitting
  above_absorber_air_gap : FuelFollowerControlRod.AirGap
  absorber : FuelFollowerControlRod.Absorber
  middle_magneform_fitting : FuelFollowerControlRod.MagneformFitting
  above_fuel_follower_air_gap : FuelFollowerControlRod.AirGap
  zr_fill_rod : FuelFollowerControlRod.ZrFillRod
  fuel_follower : FuelFollowerControlRod.FuelFollower
  lower_magneform_fitting : FuelFollowerControlRod.MagneformFitting
  lower_air_gap : FuelFollowerControlRod.AirGap
  lower_element_plug : FuelFollowerControlRod.ElementPlug
  position : Int
  deriving DecidableEq, Repr

/-- TRIGA.FuelFollowerControlRod(position = 524), the Core default fixture. -/
def GSFuelFollowerControlRod.default524 : GSFuelFollowerControlRod :=
  ⟨FuelFollowerControlRod.Cladding.default, ⟨1.5 * CM_PER_INCH, Mat.stainlessSteel⟩,
    ⟨3.5 * CM_PER_INCH, Mat.air⟩, ⟨0.5 * CM_PER_INCH, Mat.stainlessSteel⟩,
    ⟨0.125 * CM_PER_INCH, Mat.air⟩, FuelFollowerControlRod.Absorber.default,
    ⟨0.5 * CM_PER_INCH, Mat.stainlessSteel⟩, ⟨0.25 * CM_PER_INCH, Mat.air⟩,
    FuelFollowerControlRod.ZrFillRod.default, FuelFollowerControlRod.FuelFollower.default,
    ⟨1.0 * CM_PER_INCH, Mat.stainlessSteel⟩, ⟨5.375 * CM_PER_INCH, Mat.air⟩,
    ⟨0.5 * CM_PER_INCH, Mat.stainlessSteel⟩, 524⟩

/-! ## TRIGA.Core (NETL/geometry_specs.py) -/

/-- TRIGA.Core.RING_MAP: the seven concentric rings, outermost first,
exactly as listed in the source. -/
def RING_MAP : List (List String) :=
  [["G-01", "G-02", "G-03", "G-04", "G-05", "G-06",
    "G-07", "G-08", "G-09", "G-10", "G-11", "G-12",
    "G-13", "G-14", "G-15", "G-16", "G-17", "G-18",
    "G-19", "G-20", "G-21", "G-22", "G-23", "G-24",
    "G-25", "G-26", "G-27", "G-28", "G-29", "G-30",
    "G-31", "G-32", "G-33", "G-34", "G-35", "G-36"],
   ["F-01", "F-02", "F-03", "F-04", "F-05", "F-06",
    "F-07", "F-08", "F-09", "F-10", "F-11", "F-12",
    "F-13", "F-14", "F-15", "F-16", "F-17", "F-18",
    "F-19", "F-20", "F-21", "F-22", "F-23", "F-24",
    "F-25", "F-26", "F-27", "F-28", "F-29", "F-30"],
   ["E-01", "E-02", "E-03", "E-04", "E-05", "E-06",
    "E-07", "E-08", "E-09", "E-10", "E-11", "E-12",
    "E-13", "E-14", "E-15", "E-16", "E-17", "E-18",
    "E-19", "E-20", "E-21", "E-22", "E-23", "E-24"],
   ["D-01", "D-02", "D-03", "D-04", "D-05", "D-06",
    "D-07", "D-08", "D-09", "D-10", "D-11", "D-12",
    "D-13", "D-14", "D-15", "D-16", "D-17", "D-18"],
   ["C-01", "C-02", "C-03", "C-04", "C-05", "C-06",
    "C-07", "C-08", "C-09", "C-10", "C-11", "C-12"],
   ["B-01", "B-02", "B-03", "B-04", "B-05", "B-06"],
   ["A-01"]]

/-- The five reserved core locations of Core.__post_init__. -/
def reservedLocations : List String :=
  ["A-01", "C-01", "C-07", "D-06", "D-14"]

/-- TRIGA.Core.Loadable: FuelElement | GraphiteElement | SourceHolder. -/
inductive Loadable where
  | fuelElement (fe : FuelElement)
  | graphiteElement (ge : GraphiteElement)
  | sourceHolder (sh : SourceHolder)
  deriving DecidableEq, Repr

/-- TRIGA.Core.Element: Loadable | CentralThimble | TransientRod |
FuelFollowerControlRod (the geometry_specs rod classes). -/
inductive Element where
  | fuelElement (fe : FuelElement)
  | graphiteElement (ge : GraphiteElement)
  | sourceHolder (sh : SourceHolder)
  | centralThimble (ct : CentralThimble)
  | transientRod (tr : GSTransientRod)
  | ffcr (cr : GSFuelFollowerControlRod)
  deriving DecidableEq, Repr

/-- The inclusion of Loadable values into Element values (in Python the
same object inhabits both union types). -/
def Loadable.toElement : Loadable → Element
  | .fuelElement fe => .fuelElement fe
  | .graphiteElement ge => .graphiteElement ge
  | .sourceHolder sh => .sourceHolder sh

/-- TRIGA.Core.default_loading(): the documented default core loading
map, transcribed entry for entry from the source (122 entries: every
RING_MAP label except the five reserved locations). -/
def Core.default_loading : List (String × Option Loadable) :=
  [("B-01", some (Loadable.fuelElement FuelElement.default)),
   ("B-02", some (Loadable.fuelElement FuelElement.default)),
   ("B-03", some (Loadable.fuelElement FuelElement.default)),
   ("B-04", some (Loadable.fuelElement FuelElement.default)),
   ("B-05", some (Loadable.fuelElement FuelElement.default)),
   ("B-06", some (Loadable.fuelElement FuelElement.default)),
   ("C-02", some (Loadable.fuelElement FuelElement.default)),
   ("C-03", some (Loadable.fuelElement FuelElement.default)),
   ("C-04", some (Loadable.fuelElement FuelElement.default)),
   ("C-05", some (Loadable.fuelElement FuelElement.default)),
   ("C-06", some (Loadable.fuelElement FuelElement.default)),
   ("C-08", some (Loadable.fuelElement FuelElement.default)),
   ("C-09", some (Loadable.fuelElement FuelElement.default)),
   ("C-10", some (Loadable.fuelElement FuelElement.default)),
   ("C-11", some (Loadable.fuelElement FuelElement.default)),
   ("C-12", some (Loadable.fuelElement FuelElement.default)),
   ("D-01", some (Loadable.fuelElement FuelElement.default)),
   ("D-02", some (Loadable.fuelElement FuelElement.default)),
   ("D-03", some (Loadable.fuelElement FuelElement.default)),
   ("D-04", some (Loadable.fuelElement FuelElement.default)),
   ("D-05", some (Loadable.fuelElement FuelElement.default)),
   ("D-07", some (Loadable.fuelElement FuelElement.default)),
   ("D-08", some (Loadable.fuelElement FuelElement.default)),
   ("D-09", some (Loadable.fuelElement FuelElement.default)),
   ("D-10", some (Loadable.fuelElement FuelElement.default)),
   ("D-11", some (Loadable.fuelElement FuelElement.default)),
   ("D-12", some (Loadable.fuelElement FuelElement.default)),
   ("D-13", some (Loadable.fuelElement FuelElement.default)),
   ("D-15", some (Loadable.fuelElement FuelElement.default)),
   ("D-16", some (Loadable.fuelElement FuelElement.default)),
   ("D-17", some (Loadable.fuelElement FuelElement.default)),
   ("D-18", some (Loadable.fuelElement FuelElement.default)),
   ("E-01", some (Loadable.fuelElement FuelElement.default)),
   ("E-02", some (Loadable.fuelElement FuelElement.default)),
   ("E-03", some (Loadable.fuelElement FuelElement.default)),
   ("E-04", some (Loadable.fuelElement FuelElement.default)),
   ("E-05", some (Loadable.fuelElement FuelElement.default)),
   ("E-06", some (Loadable.fuelElement FuelElement.default)),
   ("E-07", some (Loadable.fuelElement FuelElement.default)),
   ("E-08", some (Loadable.fuelElement FuelElement.default)),
   ("E-09", some (Loadable.fuelElement FuelElement.default)),
   ("E-10", some (Loadable.fuelElement FuelElement.default)),
   ("E-11", none),
   ("E-12", some (Loadable.fuelElement FuelElement.default)),
   ("E-13", some (Loadable.fuelElement FuelElement.default)),
   ("E-14", some (Loadable.fuelElement FuelElement.default)),
   ("E-15", some (Loadable.fuelElement FuelElement.default)),
   ("E-16", some (Loadable.fuelElement FuelElement.default)),
   ("E-17", some (Loadable.fuelElement FuelElement.default)),
   ("E-18", some (Loadable.fuelElement FuelElement.default)),
   ("E-19", some (Loadable.fuelElement FuelElement.default)),
   ("E-20", some (Loadable.fuelElement FuelElement.default)),
   ("E-21", some (Loadable.fuelElement FuelElement.default)),
   ("E-22", some (Loadable.fuelElement FuelElement.default)),
   ("E-23", some (Loadable.fuelElement FuelElement.default)),
   ("E-24", some (Loadable.fuelElement FuelElement.default)),
   ("F-01", some (Loadable.fuelElement FuelElement.default)),
   ("F-02", some (Loadable.fuelElement FuelElement.default)),
   ("F-03", some (Loadable.fuelElement FuelElement.default)),
   ("F-04", some (Loadable.fuelElement FuelElement.default)),
   ("F-05", some (Loadable.fuelElement FuelElement.default)),
   ("F-06", some (Loadable.fuelElement FuelElement.default)),
   ("F-07", some (Loadable.fuelElement FuelElement.default)),
   ("F-08", some (Loadable.fuelElement FuelElement.default)),
   ("F-09", some (Loadable.fuelElement FuelElement.default)),
   ("F-10", some (Loadable.fuelElement FuelElement.default)),
   ("F-11", some (Loadable.fuelElement FuelElement.default)),
   ("F-12", some (Loadable.fuelElement FuelElement.default)),
   ("F-13", none),
   ("F-14", none),
   ("F-15", some (Loadable.fuelElement FuelElement.default)),
   ("F-16", some (Loadable.fuelElement FuelElement.default)),
   ("F-17", some (Loadable.fuelElement FuelElement.default)),
   ("F-18", some (Loadable.fuelElement FuelElement.default)),
   ("F-19", some (Loadable.fuelElement FuelElement.default)),
   ("F-20", some (Loadable.fuelElement FuelElement.default)),
   ("F-21", some (Loadable.fuelElement FuelElement.default)),
   ("F-22", some (Loadable.fuelElement FuelElement.default)),
   ("F-23", some (Loadable.fuelElement FuelElement.default)),
   ("F-24", some (Loadable.fuelElement FuelElement.default)),
   ("F-25", some (Loadable.fuelElement FuelElement.default)),
   ("F-26", some (Loadable.fuelElement FuelElement.default)),
   ("F-27", some (Loadable.fuelElement FuelElement.default)),
   ("F-28", some (Loadable.fuelElement FuelElement.default)),
   ("F-29", some (Loadable.fuelElement FuelElement.default)),
   ("F-30", some (Loadable.fuelElement FuelElement.default)),
   ("G-01", none),
   ("G-02", some (Loadable.fuelElement FuelElement.default)),
   ("G-03", some (Loadable.fuelElement FuelElement.default)),
   ("G-04", some (Loadable.fuelElement FuelElement.default)),
   ("G-05", some (Loadable.fuelElement FuelElement.default)),
   ("G-06", some (Loadable.fuelElement FuelElement.default)),
   ("G-07", none),
   ("G-08", some (Loadable.fuelElement FuelElement.default)),
   ("G-09", some (Loadable.fuelElement FuelElement.default)),
   ("G-10", some (Loadable.fuelElement FuelElement.default)),
   ("G-11", some (Loadable.fuelElement FuelElement.default)),
   ("G-12", some (Loadable.fuelElement FuelElement.default)),
   ("G-13", none),
   ("G-14", some (Loadable.fuelElement FuelElement.default)),
   ("G-15", some (Loadable.fuelElement FuelElement.default)),
   ("G-16", some (Loadable.fuelElement FuelElement.default)),
   ("G-17", some (Loadable.fuelElement FuelElement.default)),
   ("G-18", some (Loadable.fuelElement FuelElement.default)),
   ("G-19", none),
   ("G-20", some (Loadable.fuelElement FuelElement.default)),
   ("G-21", some (Loadable.fuelElement FuelElement.default)),
   ("G-22", some (Loadable.fuelElement FuelElement.default)),
   ("G-23", some (Loadable.fuelElement FuelElement.default)),
   ("G-24", some (Loadable.fuelElement FuelElement.default)),
   ("G-25", none),
   ("G-26", some (Loadable.fuelElement FuelElement.default)),
   ("G-27", some (Loadable.fuelElement FuelElement.default)),
   ("G-28", some (Loadable.fuelElement FuelElement.default)),
   ("G-29", some (Loadable.fuelElement FuelElement.default)),
   ("G-30", some (Loadable.fuelElement FuelElement.default)),
   ("G-31", none),
   ("G-32", some (Loadable.sourceHolder SourceHolder.default)),
   ("G-33", some (Loadable.fuelElement FuelElement.default)),
   ("G-34", none),
   ("G-35", some (Loadable.fuelElement FuelElement.default)),
   ("G-36", some (Loadable.fuelElement FuelElement.default))]

/-- TRIGA.Core: pitch, the five fixture fields, and the caller-supplied
partial core_loading. NOTE: the dataclass declares no core_map field; the
map computed by __post_init__ (see Core.core_map below) is bound to a
local variable only and is never assigned to the instance, although the
class docstring documents core_map as an attribute. -/
structure Core where
  pitch : ℚ
  central_thimble : CentralThimble
  core_loading : List (String × Option Loadable)
  transient_rod : GSTransientRod
  regulating_rod : GSFuelFollowerControlRod
  shim_1_rod : GSFuelFollowerControlRod
  shim_2_rod : GSFuelFollowerControlRod
  deriving DecidableEq, Repr

/-- The key-validation loop of Core.__post_init__: for every key of
core_loading, assert the key lies in some RING_MAP ring (else invalid
location), then assert the key is not reserved (else reserved location). -/
def Core.validateLoading : List (String × Option Loadable) → Except SpecError Unit
  | [] => Except.ok ()
  | (location, _) :: rest =>
      if RING_MAP.any (fun r => r.contains location) then
        if location ∈ reservedLocations then Except.error SpecError.reservedLocation
        else Core.validateLoading rest
      else Except.error SpecError.invalidLocation

/-- Core construction: run the validation loop of __post_init__, then
return the instance. (The source default for central_thimble is the lambda
`lambda: TRIGA.CentralThimble`, which returns the class object itself
rather than an instance — modelled here as the default instance; no claim
depends on the fixture payloads.) -/
def Core.make (pitch : ℚ := 1.714 * CM_PER_INCH)
    (central_thimble : CentralThimble := CentralThimble.default)
    (core_loading : List (String × Option Loadable) := Core.default_loading)
    (transient_rod : GSTransientRod := GSTransientRod.default524)
    (regulating_rod : GSFuelFollowerControlRod := GSFuelFollowerControlRod.default524)
    (shim_1_rod : GSFuelFollowerControlRod := GSFuelFollowerControlRod.default524)
    (shim_2_rod : GSFuelFollowerControlRod := GSFuelFollowerControlRod.default524) :
    Except SpecError Core :=
  match Core.validateLoading core_loading with
  | Except.error e => Except.error e
  | Except.ok _ =>
      Except.ok ⟨pitch, central_thimble, core_loading, transient_rod,
        regulating_rod, shim_1_rod, shim_2_rod⟩

/-- The right-hand side assigned by the loop of Core.__post_init__:
core_loading.get(location, default_loading.get(location, None)), viewed as
an Element value. -/
def Core.routed (c : Core) (location : String) : Option Element :=
  Option.map Loadable.toElement
    ((alGet c.core_loading location).getD
      ((alGet Core.default_loading location).getD none))

/-- The dict literal of the five fixture entries with which
Core.__post_init__ initializes its local core_map. -/
def Core.fixtureInit (c : Core) : List (String × Option Element) :=
  [("A-01", some (Element.centralThimble c.central_thimble)),
   ("C-01", some (Element.transientRod c.transient_rod)),
   ("C-07", some (Element.ffcr c.regulating_rod)),
   ("D-06", some (Element.ffcr c.shim_1_rod)),
   ("D-14", some (Element.ffcr c.shim_2_rod))]

/-- The map built by Core.__post_init__ (and then discarded): start from
the dict literal of the five fixture entries, then for every ring of
RING_MAP and every location in the ring assign
core_map[location] = core_loading.get(location, default_loading.get(location, None)). -/
def Core.core_map (c : Core) : List (String × Option Element) :=
  RING_MAP.flatten.foldl
    (fun m location => alSet m location (Core.routed c location))
    (Core.fixtureInit c)

/-! ## progression_problems/TRIGA/NETL/problem_2_utils.py

Withdrawal-state section selection: build_transient_rod_pincell and
build_ffcr_pincell each build the follower-section pincell when
element.fraction_withdrawn > 0.0 and the absorber-section pincell
otherwise. -/

/-- The axial section whose pincell is built at the measurement plane. -/
inductive PincellSection where
  | absorber
  | follower
  deriving DecidableEq, Repr

/-- The branch condition of build_transient_rod_pincell: air-follower
pincell when element.fraction_withdrawn > 0.0, absorber pincell otherwise. -/
def transient_rod_section (element : TransientRod) : PincellSection :=
  if element.fraction_withdrawn > 0 then PincellSection.follower
  else PincellSection.absorber

/-- The branch condition of build_ffcr_pincell: fuel-follower pincell when
element.fraction_withdrawn > 0.0, absorber pincell otherwise. -/
def ffcr_section (element : FuelFollowerControlRod) : PincellSection :=
  if element.fraction_withdrawn > 0 then PincellSection.follower
  else PincellSection.absorber

/-! ## The coreforge fuel-follower shell (consumed by build_ffcr_pincell
and DefaultGeometries.fuel_follower_control_rod)

The coreforge geometry-element package that receives the derived
fuel-follower outer radius is an external dependency whose source is not
under src/; the records below are modelled from the spec. -/

/-- Modelled from the spec: the coreforge FuelFollowerControlRod.Cladding
record (the coreforge package is not under src/). Its inner radius is the
derived quantity outer_radius - thickness, the radially consistent shell
bound of spec section 4.3. -/
structure CForgeCladding where
  thickness : ℚ
  outer_radius : ℚ
  material : Mat
  deriving DecidableEq, Repr

def CForgeCladding.inner_radius (c : CForgeCladding) : ℚ :=
  c.outer_radius - c.thickness

/-- Modelled from the spec: the coreforge
FuelFollowerControlRod.FuelFollower record, which unlike the
progression_problems record carries an explicit outer_radius (the
coreforge package is not under src/). -/
structure CForgeFuelFollower where
  inner_radius : ℚ
  outer_radius : ℚ
  material : Mat
  deriving DecidableEq, Repr

/-- Modelled from the spec: the coreforge fuel-follower shell assembly of
cladding and fuel follower; per spec section 4.3 its construction must
fail with InconsistentGeometry — not fall back to a default — whenever the
supplied fuel-follower outer radius differs from
cladding.outer_radius - cladding.thickness (the coreforge package is not
under src/). -/
structure CForgeFollowerShell where
  cladding : CForgeCladding
  fuel_follower : CForgeFuelFollower
  deriving DecidableEq, Repr

def CForgeFollowerShell.make (cladding : CForgeCladding)
    (fuel_follower : CForgeFuelFollower) : Except SpecError CForgeFollowerShell :=
  if fuel_follower.outer_radius = cladding.outer_radius - cladding.thickness then
    Except.ok ⟨cladding, fuel_follower⟩
  else Except.error SpecError.inconsistentGeometry

/-- build_ffcr_pincell (problem_2_utils.py): the coreforge cladding is
built from the progression_problems element cladding by copying thickness
and outer_radius. -/
def build_ffcr_cladding (element : FuelFollowerControlRod) : CForgeCladding :=
  ⟨element.cladding.thickness, element.cladding.outer_radius,
    element.cladding.material⟩

/-- build_ffcr_pincell (problem_2_utils.py), withdrawn branch: the
coreforge fuel follower is built with the element fuel-follower inner
radius and with outer_radius := cladding.inner_radius — the caller never
supplies an independent outer radius. -/
def build_ffcr_follower (element : FuelFollowerControlRod) : CForgeFuelFollower :=
  ⟨element.fuel_follower.inner_radius,
    (build_ffcr_cladding element).inner_radius,
    element.fuel_follower.material⟩

/-- DefaultGeometries.fuel_follower_control_rod (NETL/default_geometries.py):
fuel_follower_outer_radius = cladding.outer_radius - cladding.thickness. -/
def default_geometries_ffcr_follower_outer_radius (cladding : CForgeCladding) : ℚ :=
  cladding.outer_radius - cladding.thickness
theorem alGet_alSet {α : Type} (m : List (String × α)) (k : String) (v : α)
    (k' : String) :
    alGet (alSet m k v) k' = if k = k' then some v else alGet m k' := by
  induction m with
  | nil =>
      by_cases h : k = k' <;> simp [alSet, alGet, h]
  | cons p rest ih =>
      obtain ⟨k₁, v₁⟩ := p
      by_cases h₁ : k₁ = k
      · subst h₁
        by_cases h₂ : k₁ = k' <;> simp [alSet, alGet, h₂]
      · by_cases h₂ : k₁ = k'
        · subst h₂
          have hk : ¬ k = k₁ := fun h => h₁ h.symm
          simp [alSet, alGet, h₁, hk]
        · simp [alSet, alGet, h₁, h₂, ih]

theorem alGet_isSome_iff_mem_keys {α : Type} (m : List (String × α))
    (k : String) : (alGet m k).isSome ↔ k ∈ alKeys m := by
  induction m with
  | nil => simp [alGet, alKeys]
  | cons p rest ih =>
      obtain ⟨k₁, v₁⟩ := p
      by_cases h : k₁ = k
      · subst h
        simp [alGet, alKeys]
      · have h' : ¬ k = k₁ := fun hk => h hk.symm
        simp [alGet, alKeys, h, h', ih]

theorem alGet_foldl_alSet {α : Type} (f : String → α) (L : List String)
    (init : List (String × α)) (k : String) :
    alGet (L.foldl (fun m l => alSet m l (f l)) init) k
      = if k ∈ L then some (f k) else alGet init k := by
  induction L generalizing init with
  | nil => simp
  | cons l ls ih =>
      have step : (l :: ls).foldl (fun m l' => alSet m l' (f l')) init
          = ls.foldl (fun m l' => alSet m l' (f l')) (alSet init l (f l)) := rfl
      rw [step, ih]
      by_cases hmem : k ∈ ls
      · simp [hmem]
      · by_cases hkl : l = k
        · subst hkl
          simp [hmem, alGet_alSet]
        · have hne : ¬ k = l := fun h => hkl h.symm
          simp [hmem, hne, alGet_alSet, hkl]

/-! ## Helper lemmas -/

theorem mem_flatten_iff_any_contains (L : List (List String)) (k : String) :
    (L.any fun r => r.contains k) = true ↔ k ∈ L.flatten := by
  induction L with
  | nil => simp
  | cons r rest ih =>
      simp [List.any_cons, List.flatten_cons, ih]

/-- Characterization of TransientRod construction: it succeeds, storing
exactly the supplied field values, precisely when fraction_withdrawn lies
in the closed unit interval and maximum_withdrawal_distance is positive;
otherwise it fails with the InvalidInput kind. -/
theorem TransientRod.make_spec (cl : TransientRod.Cladding) (fg : Mat)
    (uep : TransientRod.ElementPlug) (umf : TransientRod.MagneformFitting)
    (ab : TransientRod.Absorber) (lmf : TransientRod.MagneformFitting)
    (af : TransientRod.AirGap) (lep : TransientRod.ElementPlug)
    (mwd f off : ℚ) :
    TransientRod.make cl fg uep umf ab lmf af lep mwd f off
      = if 0 ≤ f ∧ f ≤ 1 ∧ 0 < mwd
        then Except.ok ⟨cl, fg, uep, umf, ab, lmf, af, lep, mwd, f, off⟩
        else Except.error SpecError.invalidInput := by
  by_cases h₁ : (0 : ℚ) ≤ f <;> by_cases h₂ : f ≤ 1 <;> by_cases h₃ : (0 : ℚ) < mwd <;>
    simp [TransientRod.make, h₁, h₂, h₃, ge_iff_le]

/-- Characterization of FuelFollowerControlRod construction: it succeeds,
storing exactly the supplied field values, precisely when
fraction_withdrawn lies in the closed unit interval and
maximum_withdrawal_distance is positive; otherwise it fails with the
InvalidInput kind. -/
theorem FuelFollowerControlRod.ffcr_make_spec (cl : FuelFollowerControlRod.Cladding)
    (uep : FuelFollowerControlRod.ElementPlug)
    (uag : FuelFollowerControlRod.AirGap)
    (umf : FuelFollowerControlRod.MagneformFitting)
    (aag : FuelFollowerControlRod.AirGap)
    (ab : FuelFollowerControlRod.Absorber)
    (mmf : FuelFollowerControlRod.MagneformFitting)
    (afg : FuelFollowerControlRod.AirGap)
    (zfr : FuelFollowerControlRod.ZrFillRod)
    (ff : FuelFollowerControlRod.FuelFollower)
    (lmf : FuelFollowerControlRod.MagneformFitting)
    (lag : FuelFollowerControlRod.AirGap)
    (lep : FuelFollowerControlRod.ElementPlug)
    (mwd f off : ℚ) :
    FuelFollowerControlRod.make cl uep uag umf aag ab mmf afg zfr ff lmf lag lep mwd f off
      = if 0 ≤ f ∧ f ≤ 1 ∧ 0 < mwd
        then Except.ok ⟨cl, uep, uag, umf, aag, ab, mmf, afg, zfr, ff, lmf, lag,
          lep, mwd, f, off⟩
        else Except.error SpecError.invalidInput := by
  by_cases h₁ : (0 : ℚ) ≤ f <;> by_cases h₂ : f ≤ 1 <;> by_cases h₃ : (0 : ℚ) < mwd <;>
    simp [FuelFollowerControlRod.make, h₁, h₂, h₃, ge_iff_le]

/-- If every key of the partial loading is a RING_MAP label and none is
reserved, the validation loop of Core.__post_init__ passes. -/
theorem Core.validateLoading_ok_of_forall
    (loading : List (String × Option Loadable))
    (h : ∀ k v, (k, v) ∈ loading → k ∈ RING_MAP.flatten ∧ k ∉ reservedLocations) :
    Core.validateLoading loading = Except.ok () := by
  induction loading with
  | nil => rfl
  | cons p rest ih =>
      obtain ⟨k, v⟩ := p
      have hk := h k v (List.mem_cons_self _ _)
      have hany : (RING_MAP.any fun r => r.contains k) = true :=
        (mem_flatten_iff_any_contains RING_MAP k).mpr hk.1
      have htail : Core.validateLoading rest = Except.ok () :=
        ih fun k' v' hm => h k' v' (List.mem_cons_of_mem _ hm)
      simp only [Core.validateLoading]
      rw [if_pos hany, if_neg hk.2]
      exact htail

/-- If the validation loop of Core.__post_init__ passes, every key of the
partial loading is a RING_MAP label and none is reserved. -/
theorem Core.validateLoading_forall_of_ok
    (loading : List (String × Option Loadable))
    (h : Core.validateLoading loading = Except.ok ()) :
    ∀ k v, (k, v) ∈ loading → k ∈ RING_MAP.flatten ∧ k ∉ reservedLocations := by
  induction loading with
  | nil => intro k v hm; simp at hm
  | cons p rest ih =>
      obtain ⟨k₁, v₁⟩ := p
      simp only [Core.validateLoading] at h
      by_cases hany : (RING_MAP.any fun r => r.contains k₁) = true
      · rw [if_pos hany] at h
        by_cases hres : k₁ ∈ reservedLocations
        · rw [if_pos hres] at h
          simp at h
        · rw [if_neg hres] at h
          intro k v hm
          rcases List.mem_cons.mp hm with hh | ht
          · obtain ⟨hk, hv⟩ := Prod.mk.injEq .. ▸ hh
            subst hk
            exact ⟨(mem_flatten_iff_any_contains RING_MAP k).mp hany, hres⟩
          · exact ih h k v ht
      · rw [if_neg hany] at h
        simp at h

/-- If every key of the partial loading is a RING_MAP label but some key
is reserved, the validation loop of Core.__post_init__ fails with the
ReservedLocation kind. -/
theorem Core.validateLoading_reserved
    (loading : List (String × Option Loadable))
    (hall : ∀ k v, (k, v) ∈ loading → k ∈ RING_MAP.flatten)
    (hex : ∃ k v, (k, v) ∈ loading ∧ k ∈ reservedLocations) :
    Core.validateLoading loading = Except.error SpecError.reservedLocation := by
  induction loading with
  | nil =>
      obtain ⟨k, v, hm, _⟩ := hex
      simp at hm
  | cons p rest ih =>
      obtain ⟨k₁, v₁⟩ := p
      have hk₁ : k₁ ∈ RING_MAP.flatten := hall k₁ v₁ (List.mem_cons_self _ _)
      have hany : (RING_MAP.any fun r => r.contains k₁) = true :=
        (mem_flatten_iff_any_contains RING_MAP k₁).mpr hk₁
      simp only [Core.validateLoading]
      rw [if_pos hany]
      by_cases hres : k₁ ∈ reservedLocations
      · rw [if_pos hres]
      · rw [if_neg hres]
        obtain ⟨k, v, hm, hkr⟩ := hex
        rcases List.mem_cons.mp hm with hh | ht
        · obtain ⟨hk, hv⟩ := Prod.mk.injEq .. ▸ hh
          subst hk
          exact absurd hkr hres
        · exact ih (fun k' v' h' => hall k' v' (List.mem_cons_of_mem _ h'))
            ⟨k, v, ht, hkr⟩

/-- If no key of the partial loading is reserved but some key is not a
RING_MAP label, the validation loop of Core.__post_init__ fails with the
InvalidLocation kind. -/
theorem Core.validateLoading_invalid
    (loading : List (String × Option Loadable))
    (hall : ∀ k v, (k, v) ∈ loading → k ∉ reservedLocations)
    (hex : ∃ k v, (k, v) ∈ loading ∧ k ∉ RING_MAP.flatten) :
    Core.validateLoading loading = Except.error SpecError.invalidLocation := by
  induction loading with
  | nil =>
      obtain ⟨k, v, hm, _⟩ := hex
      simp at hm
  | cons p rest ih =>
      obtain ⟨k₁, v₁⟩ := p
      simp only [Core.validateLoading]
      by_cases hany : (RING_MAP.any fun r => r.contains k₁) = true
      · have hres : k₁ ∉ reservedLocations := hall k₁ v₁ (List.mem_cons_self _ _)
        rw [if_pos hany, if_neg hres]
        obtain ⟨k, v, hm, hkr⟩ := hex
        rcases List.mem_cons.mp hm with hh | ht
        · obtain ⟨hk, hv⟩ := Prod.mk.injEq .. ▸ hh
          subst hk
          exact absurd ((mem_flatten_iff_any_contains RING_MAP k).mp hany) hkr
        · exact ih (fun k' v' h' => hall k' v' (List.mem_cons_of_mem _ h'))
            ⟨k, v, ht, hkr⟩
      · rw [if_neg hany]

/-! ## Claim theorems -/

/-- C3: for every FuelElement constructed from parts (any combination of
constituent dimensions, not only the defaults), the stored interior_length
equals exactly lower_graphite_reflector.thickness + moly_disc.thickness +
fuel_meat.length + upper_graphite_reflector.thickness +
upper_air_gap.thickness. -/
theorem claim_C3 (cladding : FuelElement.Cladding)
    (upper_end_fitting : FuelElement.EndFitting)
    (upper_air_gap : FuelElement.AirGap)
    (upper_graphite_reflector : FuelElement.GraphiteReflector)
    (zr_fill_rod : FuelElement.ZrFillRod) (fuel_meat : FuelElement.FuelMeat)
    (moly_disc : FuelElement.MolyDisc)
    (lower_graphite_reflector : FuelElement.GraphiteReflector)
    (lower_end_fitting : FuelElement.EndFitting) :
    (FuelElement.make cladding upper_end_fitting upper_air_gap
        upper_graphite_reflector zr_fill_rod fuel_meat moly_disc
        lower_graphite_reflector lower_end_fitting).interior_length
      = lower_graphite_reflector.thickness + moly_disc.thickness
        + fuel_meat.length + upper_graphite_reflector.thickness
        + upper_air_gap.thickness := rfl

/-- C6: for the dimensioned components, construction fails with the
InvalidDimension kind whenever a declared length, radius or thickness is
not positive, succeeds exactly when all dimensions are positive and every
declared inner/outer radius pair satisfies outer_radius > inner_radius
strictly (so equality or inversion of a pair fails), and succeeds at the
documented defaults, shown here for the cited representatives
CentralThimble, BeamPort and FuelElement.FuelMeat. -/
theorem claim_C6 :
    (∀ ir orr m, CentralThimble.make ir orr m
        = if 0 < ir ∧ ir < orr then Except.ok ⟨ir, orr, m⟩
          else Except.error SpecError.invalidDimension)
  ∧ (∀ ir orr rot tr tp tm fm, BeamPort.make ir orr rot tr tp tm fm
        = if 0 < ir ∧ ir < orr then Except.ok ⟨ir, orr, rot, tr, tp, tm, fm⟩
          else Except.error SpecError.invalidDimension)
  ∧ (∀ ir orr len m, FuelElement.FuelMeat.make ir orr len m
        = if 0 < ir ∧ ir < orr ∧ 0 < len then Except.ok ⟨ir, orr, len, m⟩
          else Except.error SpecError.invalidDimension)
  ∧ CentralThimble.make = Except.ok CentralThimble.default
  ∧ BeamPort.make = Except.ok BeamPort.default
  ∧ FuelElement.FuelMeat.make = Except.ok FuelElement.FuelMeat.default := by
  refine ⟨?_, ?_, ?_, ?_, ?_, ?_⟩
  · intro ir orr m
    by_cases h₁ : (0 : ℚ) < ir <;> by_cases h₂ : ir < orr <;>
      simp [CentralThimble.make, h₁, h₂]
  · intro ir orr rot tr tp tm fm
    by_cases h₁ : (0 : ℚ) < ir <;> by_cases h₂ : ir < orr <;>
      simp [BeamPort.make, h₁, h₂]
  · intro ir orr len m
    by_cases h₁ : (0 : ℚ) < ir <;> by_cases h₂ : ir < orr <;>
      by_cases h₃ : (0 : ℚ) < len <;>
      simp [FuelElement.FuelMeat.make, h₁, h₂, h₃]
  · norm_num [CentralThimble.make, CentralThimble.default, CM_PER_INCH]
  · norm_num [BeamPort.make, BeamPort.default, CM_PER_INCH]
  · norm_num [FuelElement.FuelMeat.make, FuelElement.FuelMeat.default, CM_PER_INCH]

/-- C7: TransientRod and FuelFollowerControlRod construction fails with
the InvalidInput kind when fraction_withdrawn < 0 or fraction_withdrawn > 1
or maximum_withdrawal_distance ≤ 0, and for every fraction_withdrawn in
the closed interval from 0 to 1 (with positive maximum withdrawal
distance) it succeeds, storing exactly the supplied value — never a
silently clamped one. -/
theorem claim_C7 :
    (∀ cl fg uep umf ab lmf af lep mwd f off,
       TransientRod.make cl fg uep umf ab lmf af lep mwd f off
         = if 0 ≤ f ∧ f ≤ 1 ∧ 0 < mwd
           then Except.ok ⟨cl, fg, uep, umf, ab, lmf, af, lep, mwd, f, off⟩
           else Except.error SpecError.invalidInput)
  ∧ (∀ cl uep uag umf aag ab mmf afg zfr ff lmf lag lep mwd f off,
       FuelFollowerControlRod.make cl uep uag umf aag ab mmf afg zfr ff lmf
           lag lep mwd f off
         = if 0 ≤ f ∧ f ≤ 1 ∧ 0 < mwd
           then Except.ok ⟨cl, uep, uag, umf, aag, ab, mmf, afg, zfr, ff, lmf,
             lag, lep, mwd, f, off⟩
           else Except.error SpecError.invalidInput) :=
  ⟨fun cl fg uep umf ab lmf af lep mwd f off =>
     TransientRod.make_spec cl fg uep umf ab lmf af lep mwd f off,
   fun cl uep uag umf aag ab mmf afg zfr ff lmf lag lep mwd f off =>
     FuelFollowerControlRod.ffcr_make_spec cl uep uag umf aag ab mmf afg zfr ff lmf
       lag lep mwd f off⟩

/-- C8: constructing a component with explicit arguments equal to its own
documented defaults (including the material field, materials being
content-equal values) produces exactly the zero-argument default result,
shown for the cited representatives FuelElement.FuelMeat and BeamPort and
additionally for CentralThimble and TransientRod. -/
theorem claim_C8 :
    FuelElement.FuelMeat.make (0.25 * 0.5 * CM_PER_INCH)
        (1.435 * 0.5 * CM_PER_INCH) (15.0 * CM_PER_INCH) (Mat.freshFuel none)
      = FuelElement.FuelMeat.make
  ∧ BeamPort.make (6.065 * 0.5 * CM_PER_INCH) (6.625 * CM_PER_INCH)
        [[0.0, 90.0, 90.0], [90.0, 0.0, 90.0], [90.0, 90.0, 0.0]]
        (0.0, 0.0, 0.0) none Mat.aluminum Mat.air
      = BeamPort.make
  ∧ CentralThimble.make (1.33 * 0.5 * CM_PER_INCH) (1.5 * 0.5 * CM_PER_INCH)
        Mat.aluminum
      = CentralThimble.make
  ∧ TransientRod.make TransientRod.Cladding.default Mat.air
        TransientRod.ElementPlug.default TransientRod.MagneformFitting.default
        TransientRod.Absorber.default TransientRod.MagneformFitting.default
        TransientRod.AirGap.default TransientRod.ElementPlug.default
        (15.0 * CM_PER_INCH) 0.0 0.0
      = TransientRod.make :=
  ⟨rfl, rfl, rfl, rfl⟩

/-- C9: the default GraphiteElement is dimensionally coupled to the
default FuelElement: its graphite meat length equals the default
FuelElement interior_length (concretely 21.811 inches), its graphite meat
outer radius equals the default FuelElement.FuelMeat outer radius, and its
cladding thickness and outer radius equal those of the default
FuelElement.Cladding. -/
theorem claim_C9 :
    GraphiteElement.default.graphite_meat.length
        = FuelElement.default.interior_length
  ∧ GraphiteElement.default.graphite_meat.outer_radius
        = FuelElement.FuelMeat.default.outer_radius
  ∧ GraphiteElement.default.cladding.thickness
        = FuelElement.Cladding.default.thickness
  ∧ GraphiteElement.default.cladding.outer_radius
        = FuelElement.Cladding.default.outer_radius
  ∧ GraphiteElement.default.graphite_meat.length = 21.811 * CM_PER_INCH := by
  refine ⟨rfl, rfl, rfl, rfl, ?_⟩
  norm_num [GraphiteElement.default, GraphiteElement.make,
    GraphiteElement.GraphiteMeat.default, FuelElement.default, FuelElement.make,
    FuelElement.FuelMeat.default, FuelElement.MolyDisc.default,
    FuelElement.AirGap.default, CM_PER_INCH]

/-- C10: for the thickness-parameterized claddings (FuelElement.Cladding,
TransientRod.Cladding, FuelFollowerControlRod.Cladding), construction
succeeds exactly when thickness > 0 and outer_radius > 0, including when
thickness ≥ outer_radius: the implied inner radius
outer_radius - thickness may be zero or negative without any construction
error, witnessed by concrete claddings with thickness 2 and outer radius 1. -/
theorem claim_C10 :
    (∀ t orr m, FuelElement.Cladding.make t orr m
        = if 0 < t ∧ 0 < orr then Except.ok ⟨t, orr, m⟩
          else Except.error SpecError.invalidDimension)
  ∧ (∀ orr t m, TransientRod.Cladding.make orr t m
        = if 0 < orr ∧ 0 < t then Except.ok ⟨orr, t, m⟩
          else Except.error SpecError.invalidDimension)
  ∧ (∀ orr t m, FuelFollowerControlRod.Cladding.make orr t m
        = if 0 < orr ∧ 0 < t then Except.ok ⟨orr, t, m⟩
          else Except.error SpecError.invalidDimension)
  ∧ FuelElement.Cladding.make 2 1 Mat.stainlessSteel
        = Except.ok ⟨2, 1, Mat.stainlessSteel⟩
  ∧ TransientRod.Cladding.make 1 2 Mat.aluminum
        = Except.ok ⟨1, 2, Mat.aluminum⟩
  ∧ FuelFollowerControlRod.Cladding.make 1 2 Mat.stainlessSteel
        = Except.ok ⟨1, 2, Mat.stainlessSteel⟩ := by
  refine ⟨?_, ?_, ?_, ?_, ?_, ?_⟩
  · intro t orr m
    by_cases h₁ : (0 : ℚ) < t <;> by_cases h₂ : (0 : ℚ) < orr <;>
      simp [FuelElement.Cladding.make, h₁, h₂]
  · intro orr t m
    by_cases h₁ : (0 : ℚ) < orr <;> by_cases h₂ : (0 : ℚ) < t <;>
      simp [TransientRod.Cladding.make, h₁, h₂]
  · intro orr t m
    by_cases h₁ : (0 : ℚ) < orr <;> by_cases h₂ : (0 : ℚ) < t <;>
      simp [FuelFollowerControlRod.Cladding.make, h₁, h₂]
  · norm_num [FuelElement.Cladding.make]
  · norm_num [TransientRod.Cladding.make]
  · norm_num [FuelFollowerControlRod.Cladding.make]

/-- C5: for every constructed TransientRod and FuelFollowerControlRod,
the axial section built at the measurement plane is a pure function of
fraction_withdrawn alone: the absorber section is selected exactly when
fraction_withdrawn = 0 (inserted), the follower section exactly when
fraction_withdrawn > 0 (withdrawn), and any two rods with equal
fraction_withdrawn select the identical section. -/
theorem claim_C5 :
    (∀ cl fg uep umf ab lmf af lep mwd f off t,
       TransientRod.make cl fg uep umf ab lmf af lep mwd f off = Except.ok t →
         ((transient_rod_section t = PincellSection.absorber
             ↔ t.fraction_withdrawn = 0)
          ∧ (transient_rod_section t = PincellSection.follower
             ↔ 0 < t.fraction_withdrawn)))
  ∧ (∀ cl uep uag umf aag ab mmf afg zfr ff lmf lag lep mwd f off g,
       FuelFollowerControlRod.make cl uep uag umf aag ab mmf afg zfr ff lmf
           lag lep mwd f off = Except.ok g →
         ((ffcr_section g = PincellSection.absorber
             ↔ g.fraction_withdrawn = 0)
          ∧ (ffcr_section g = PincellSection.follower
             ↔ 0 < g.fraction_withdrawn)))
  ∧ (∀ t g, t.fraction_withdrawn = g.fraction_withdrawn →
       transient_rod_section t = ffcr_section g) := by
  refine ⟨?_, ?_, ?_⟩
  · intro cl fg uep umf ab lmf af lep mwd f off t h
    rw [TransientRod.make_spec] at h
    split at h
    · rename_i hcond
      obtain ⟨hf₀, _, _⟩ := hcond
      obtain rfl : t = ⟨cl, fg, uep, umf, ab, lmf, af, lep, mwd, f, off⟩ :=
        (Except.ok.injEq .. ▸ h).symm
      rcases eq_or_lt_of_le hf₀ with hf | hf
      · simp [transient_rod_section, ← hf]
      · simp [transient_rod_section, hf, hf.ne']
    · simp at h
  · intro cl uep uag umf aag ab mmf afg zfr ff lmf lag lep mwd f off g h
    rw [FuelFollowerControlRod.ffcr_make_spec] at h
    split at h
    · rename_i hcond
      obtain ⟨hf₀, _, _⟩ := hcond
      obtain rfl : g = ⟨cl, uep, uag, umf, aag, ab, mmf, afg, zfr, ff, lmf,
          lag, lep, mwd, f, off⟩ := (Except.ok.injEq .. ▸ h).symm
      rcases eq_or_lt_of_le hf₀ with hf | hf
      · simp [ffcr_section, ← hf]
      · simp [ffcr_section, hf, hf.ne']
    · simp at h
  · intro t g h
    simp only [transient_rod_section, ffcr_section, h]

/-- C5 witness: the default rods are constructed with fraction_withdrawn
zero and the theorem applies to them, giving the inserted (absorber)
section. -/
theorem claim_C5_witness :
    (transient_rod_section TransientRod.default = PincellSection.absorber
       ↔ TransientRod.default.fraction_withdrawn = 0)
  ∧ (ffcr_section FuelFollowerControlRod.default = PincellSection.absorber
       ↔ FuelFollowerControlRod.default.fraction_withdrawn = 0) := by
  have ht : TransientRod.make = Except.ok TransientRod.default := by
    norm_num [TransientRod.make, TransientRod.default, CM_PER_INCH]
  have hg : FuelFollowerControlRod.make
      = Except.ok FuelFollowerControlRod.default := by
    norm_num [FuelFollowerControlRod.make, FuelFollowerControlRod.default,
      CM_PER_INCH]
  exact ⟨(claim_C5.1 _ _ _ _ _ _ _ _ _ _ _ _ ht).1,
    (claim_C5.2.1 _ _ _ _ _ _ _ _ _ _ _ _ _ _ _ _ _ hg).1⟩

/-- C2: the fuel follower outer radius is never independently supplied by
the repository code: build_ffcr_pincell always passes the derived value
cladding.outer_radius - cladding.thickness (the cladding inner radius),
DefaultGeometries computes the same derivation, the derived value makes
the shell construction succeed, and supplying any outer radius
inconsistent with the derivation makes construction fail with the
InconsistentGeometry kind rather than fall back to a default. -/
theorem claim_C2 :
    (∀ element : FuelFollowerControlRod,
       (build_ffcr_follower element).outer_radius
           = (build_ffcr_cladding element).outer_radius
             - (build_ffcr_cladding element).thickness
       ∧ CForgeFollowerShell.make (build_ffcr_cladding element)
             (build_ffcr_follower element)
           = Except.ok ⟨build_ffcr_cladding element, build_ffcr_follower element⟩)
  ∧ (∀ (cl : CForgeCladding) (ff : CForgeFuelFollower),
       ff.outer_radius ≠ cl.outer_radius - cl.thickness →
         CForgeFollowerShell.make cl ff
           = Except.error SpecError.inconsistentGeometry)
  ∧ (∀ cl : CForgeCladding,
       default_geometries_ffcr_follower_outer_radius cl
         = cl.outer_radius - cl.thickness) := by
  refine ⟨?_, ?_, fun cl => rfl⟩
  · intro element
    refine ⟨rfl, ?_⟩
    simp [CForgeFollowerShell.make, build_ffcr_follower, build_ffcr_cladding,
      CForgeCladding.inner_radius]
  · intro cl ff h
    simp [CForgeFollowerShell.make, h]

/-- C2 witness: a concrete inconsistent pair (cladding with outer radius
1.31/2 inches and thickness 0.02 inches, fuel follower with outer radius
99 cm) fails with the InconsistentGeometry kind. -/
theorem claim_C2_witness :
    CForgeFollowerShell.make
        ⟨0.02 * CM_PER_INCH, 1.31 * 0.5 * CM_PER_INCH, Mat.stainlessSteel⟩
        ⟨0.125 * CM_PER_INCH, 99, Mat.freshFuel (some 6.0124)⟩
      = Except.error SpecError.inconsistentGeometry := by
  apply claim_C2.2.1
  norm_num [CM_PER_INCH]

/-- C4: Core construction fails with the InvalidLocation kind when some
core_loading key is not a RING_MAP label (given no reserved key comes
first in kind), fails with the ReservedLocation kind when some key is one
of the five reserved labels A-01, C-01, C-07, D-06, D-14 (all of which are
RING_MAP labels), succeeds exactly when no key violates either rule, and
Z-99 is not a RING_MAP label. -/
theorem claim_C4 :
    (∀ p ct (loading : List (String × Option Loadable)) tr rr s1 s2,
       (∀ k v, (k, v) ∈ loading → k ∈ RING_MAP.flatten ∧ k ∉ reservedLocations) →
         Core.make p ct loading tr rr s1 s2
           = Except.ok ⟨p, ct, loading, tr, rr, s1, s2⟩)
  ∧ (∀ p ct loading tr rr s1 s2,
       (∀ k v, (k, v) ∈ loading → k ∈ RING_MAP.flatten) →
       (∃ k v, (k, v) ∈ loading ∧ k ∈ reservedLocations) →
         Core.make p ct loading tr rr s1 s2
           = Except.error SpecError.reservedLocation)
  ∧ (∀ p ct loading tr rr s1 s2,
       (∀ k v, (k, v) ∈ loading → k ∉ reservedLocations) →
       (∃ k v, (k, v) ∈ loading ∧ k ∉ RING_MAP.flatten) →
         Core.make p ct loading tr rr s1 s2
           = Except.error SpecError.invalidLocation)
  ∧ (∀ p ct loading tr rr s1 s2 c,
       Core.make p ct loading tr rr s1 s2 = Except.ok c →
         ∀ k v, (k, v) ∈ loading → k ∈ RING_MAP.flatten ∧ k ∉ reservedLocations)
  ∧ reservedLocations = ["A-01", "C-01", "C-07", "D-06", "D-14"]
  ∧ ("Z-99" : String) ∉ RING_MAP.flatten := by
  refine ⟨?_, ?_, ?_, ?_, rfl, by decide⟩
  · intro p ct loading tr rr s1 s2 h
    have hok := Core.validateLoading_ok_of_forall loading h
    simp [Core.make, hok]
  · intro p ct loading tr rr s1 s2 hall hex
    have herr := Core.validateLoading_reserved loading hall hex
    simp [Core.make, herr]
  · intro p ct loading tr rr s1 s2 hall hex
    have herr := Core.validateLoading_invalid loading hall hex
    simp [Core.make, herr]
  · intro p ct loading tr rr s1 s2 c h
    cases hval : Core.validateLoading loading with
    | error e => simp [Core.make, hval] at h
    | ok u =>
        cases u
        exact Core.validateLoading_forall_of_ok loading hval

/-- C4 witness: a loading with the valid unreserved key B-01 constructs
successfully storing the supplied fields; the reserved key A-01 fails with
the ReservedLocation kind; the unknown key Z-99 fails with the
InvalidLocation kind. -/
theorem claim_C4_witness :
    Core.make (1.714 * CM_PER_INCH) CentralThimble.default
        [("B-01", some (Loadable.fuelElement FuelElement.default))]
        GSTransientRod.default524 GSFuelFollowerControlRod.default524
        GSFuelFollowerControlRod.default524 GSFuelFollowerControlRod.default524
      = Except.ok ⟨1.714 * CM_PER_INCH, CentralThimble.default,
          [("B-01", some (Loadable.fuelElement FuelElement.default))],
          GSTransientRod.default524, GSFuelFollowerControlRod.default524,
          GSFuelFollowerControlRod.default524, GSFuelFollowerControlRod.default524⟩
  ∧ Core.make (1.714 * CM_PER_INCH) CentralThimble.default [("A-01", none)]
        GSTransientRod.default524 GSFuelFollowerControlRod.default524
        GSFuelFollowerControlRod.default524 GSFuelFollowerControlRod.default524
      = Except.error SpecError.reservedLocation
  ∧ Core.make (1.714 * CM_PER_INCH) CentralThimble.default [("Z-99", none)]
        GSTransientRod.default524 GSFuelFollowerControlRod.default524
        GSFuelFollowerControlRod.default524 GSFuelFollowerControlRod.default524
      = Except.error SpecError.invalidLocation := by
  refine ⟨claim_C4.1 _ _ _ _ _ _ _ ?_, claim_C4.2.1 _ _ _ _ _ _ _ ?_ ?_,
    claim_C4.2.2.1 _ _ _ _ _ _ _ ?_ ?_⟩
  · intro k v hm
    simp only [List.mem_singleton, Prod.mk.injEq] at hm
    obtain ⟨hk, -⟩ := hm
    subst hk
    exact ⟨by decide, by decide⟩
  · intro k v hm
    simp only [List.mem_singleton, Prod.mk.injEq] at hm
    obtain ⟨hk, -⟩ := hm
    subst hk
    decide
  · exact ⟨"A-01", none, by simp, by decide⟩
  · intro k v hm
    simp only [List.mem_singleton, Prod.mk.injEq] at hm
    obtain ⟨hk, -⟩ := hm
    subst hk
    decide
  · exact ⟨"Z-99", none, by simp, by decide⟩

/-- C1: for every constructed Core, the position-to-assembly map built by
Core.__post_init__ has keys exactly the labels of RING_MAP, each label
mapping to the callers core_loading value when present, else the
documented default loading value, else empty; in the default loading,
position E-11 is empty and position G-32 holds a source holder. (The
source computes this map as a local variable and never assigns it to the
instance, so it is NOT available on the constructed Core even though the
class docstring documents a core_map attribute.) -/
theorem claim_C1 (c : Core) :
    (∀ loc, alGet (Core.core_map c) loc
        = if loc ∈ RING_MAP.flatten
          then some (Option.map Loadable.toElement
            ((alGet c.core_loading loc).getD
              ((alGet Core.default_loading loc).getD none)))
          else none)
  ∧ (∀ loc, loc ∈ alKeys (Core.core_map c) ↔ loc ∈ RING_MAP.flatten)
  ∧ alGet Core.default_loading "E-11" = some none
  ∧ alGet Core.default_loading "G-32"
      = some (some (Loadable.sourceHolder SourceHolder.default)) := by
  have hval : ∀ loc, alGet (Core.core_map c) loc
      = if loc ∈ RING_MAP.flatten then some (Core.routed c loc)
        else alGet (Core.fixtureInit c) loc := fun loc =>
    alGet_foldl_alSet (Core.routed c) RING_MAP.flatten (Core.fixtureInit c) loc
  have hinit : ∀ loc, loc ∉ RING_MAP.flatten →
      alGet (Core.fixtureInit c) loc = none := by
    intro loc hloc
    have hA : ("A-01" : String) ∈ RING_MAP.flatten := by decide
    have hB : ("C-01" : String) ∈ RING_MAP.flatten := by decide
    have hC : ("C-07" : String) ∈ RING_MAP.flatten := by decide
    have hD : ("D-06" : String) ∈ RING_MAP.flatten := by decide
    have hE : ("D-14" : String) ∈ RING_MAP.flatten := by decide
    have h1 : ¬ ("A-01" = loc) := fun he => hloc (he ▸ hA)
    have h2 : ¬ ("C-01" = loc) := fun he => hloc (he ▸ hB)
    have h3 : ¬ ("C-07" = loc) := fun he => hloc (he ▸ hC)
    have h4 : ¬ ("D-06" = loc) := fun he => hloc (he ▸ hD)
    have h5 : ¬ ("D-14" = loc) := fun he => hloc (he ▸ hE)
    simp [Core.fixtureInit, alGet, h1, h2, h3, h4, h5]
  refine ⟨?_, ?_, ?_, ?_⟩
  · intro loc
    rw [hval loc]
    by_cases hm : loc ∈ RING_MAP.flatten
    · simp [hm, Core.routed]
    · simp [hm, hinit loc hm]
  · intro loc
    rw [← alGet_isSome_iff_mem_keys, hval loc]
    by_cases hm : loc ∈ RING_MAP.flatten
    · simp [hm]
    · simp [hm, hinit loc hm]
  · simp [Core.default_loading, alGet]
  · simp [Core.default_loading, alGet]
